import Mathlib

/-!
Verification of the tp-nebulosos HVAC fuzzy-control simulator.

The Python sources under `app/` are embedded shallowly over `ℚ`
(floating-point arithmetic is modelled by exact rationals, matching the
spec's "within floating tolerance" reading):

* `app/config/parameters.py`  → `Params` / `defaultParams`
* `app/plant/thermal_model.py` → `update_temperature`
* `app/plant/fan_model.py`     → `compute_alpha`, `update_fan_speed`,
  `compute_cooling_power`
* `app/control/membership.py`  → the triangular term parameters
  (`error_NL` … `fan_High`)
* `app/control/fuzzy_controller.py` → the rule table
  (`strength_Off` … `strength_High`) and `compute_u_fuzzy`
* `app/simulation/state.py`    → `SimulationState`
* `app/simulation/history.py`  → `SimulationHistory`
* `app/simulation/engine.py`   → `simulate_step`, `run_simulation`

The generic Mamdani inference machinery (membership evaluation, rule
firing, implication/aggregation, centroid defuzzification) lives in the
external `skfuzzy` package and is not part of this repository's sources;
those parts are modelled from the spec (section 4.1), as marked on each
definition, while every constant, term parameter and rule comes from the
repository code.
-/

/-- Configuration constants of `app/config/parameters.py`.  The Python
module hard-codes one value for each name; `defaultParams` records them.
Definitions take the bundle as an argument so that statements about other
(e.g. invalid) configurations can be expressed. -/
structure Params where
  DT : ℚ
  C_THERMAL : ℚ
  T_INITIAL : ℚ
  Q_BASE : ℚ
  Q_EXTRA_DEFAULT : ℚ
  Q_COOL_DEFAULT : ℚ
  Q_MAX : ℚ
  TAU_FAN : ℚ

/-- The values hard-coded in `app/config/parameters.py`. -/
def defaultParams : Params :=
  { DT := 1
    C_THERMAL := 1000000
    T_INITIAL := 30
    Q_BASE := 2500
    Q_EXTRA_DEFAULT := 0
    Q_COOL_DEFAULT := 0
    Q_MAX := 18000
    TAU_FAN := 10 }

/-- `app/plant/thermal_model.py`, `update_temperature`:
`T_next = T_current + (DT / C_THERMAL) * (Q_dist - Q_cool)`. -/
def update_temperature (p : Params) (T_current Q_dist Q_cool : ℚ) : ℚ :=
  T_current + (p.DT / p.C_THERMAL) * (Q_dist - Q_cool)

/-- `app/plant/fan_model.py`, `_compute_alpha`:
`DT / TAU_FAN if TAU_FAN > 0 else 1.0`. -/
def compute_alpha (p : Params) : ℚ :=
  if 0 < p.TAU_FAN then p.DT / p.TAU_FAN else 1

/-- `app/plant/fan_model.py`, `update_fan_speed`: first-order approach to
the reference followed by saturation to `[0, 100]`, written with the same
`if`/`elif` chain as the source. -/
def update_fan_speed (p : Params) (u_fan_current u_fuzzy : ℚ) : ℚ :=
  let u_next := u_fan_current + compute_alpha p * (u_fuzzy - u_fan_current)
  if u_next < 0 then 0 else if 100 < u_next then 100 else u_next

/-- `app/plant/fan_model.py`, `compute_cooling_power`:
`Q_MAX * (max(0.0, min(100.0, u_fan)) / 100.0)`. -/
def compute_cooling_power (p : Params) (u_fan : ℚ) : ℚ :=
  p.Q_MAX * (max 0 (min 100 u_fan) / 100)

/-- Repeated application of `update_temperature` with constant disturbance
and cooling powers, as in `n` successive simulation steps. -/
def temperature_after (p : Params) (Q_dist Q_cool : ℚ) : ℕ → ℚ → ℚ
  | 0, T => T
  | n + 1, T => temperature_after p Q_dist Q_cool n (update_temperature p T Q_dist Q_cool)

/-- C4: iterating the thermal update `n` times from `T_0` with constant
powers gives exactly `T_0 + n·DT·(Q_dist − Q_cool)/C_THERMAL` (the update
applies no clamping), and with `Q_dist = Q_cool` the temperature is
constant for arbitrarily many steps. -/
theorem thermal_drift_exact (p : Params) (T0 Q_dist Q_cool : ℚ) (n : ℕ) :
    temperature_after p Q_dist Q_cool n T0
      = T0 + (n : ℚ) * p.DT * (Q_dist - Q_cool) / p.C_THERMAL ∧
    temperature_after p Q_dist Q_dist n T0 = T0 := by
  constructor
  · induction n generalizing T0 with
    | zero => simp [temperature_after]
    | succ n ih =>
        rw [temperature_after, ih, update_temperature]
        push_cast
        ring
  · induction n generalizing T0 with
    | zero => rfl
    | succ n ih =>
        rw [temperature_after, update_temperature]
        simpa using ih T0

/-- C5: the fan update is the clamp to `[0,100]` of
`u_prev + α·(u_ref − u_prev)` with `α = DT/TAU_FAN` for positive
`TAU_FAN` and `α = 1` otherwise, and an in-range reference equal to the
current command is a fixed point. -/
theorem fan_update_clamped_first_order (p : Params) (u r : ℚ)
    (h0 : 0 ≤ u) (h100 : u ≤ 100) :
    update_fan_speed p u r
      = max 0 (min 100 (u + (if 0 < p.TAU_FAN then p.DT / p.TAU_FAN else 1) * (r - u))) ∧
    update_fan_speed p u u = u := by
  constructor
  · rw [update_fan_speed, compute_alpha]
    set v := u + (if 0 < p.TAU_FAN then p.DT / p.TAU_FAN else 1) * (r - u) with hv
    by_cases hneg : v < 0
    · rw [if_pos hneg, min_eq_right (by linarith : v ≤ (100:ℚ)),
        max_eq_left (by linarith : v ≤ (0:ℚ))]
    · rw [if_neg hneg]
      by_cases hbig : 100 < v
      · rw [if_pos hbig, min_eq_left (by linarith : (100:ℚ) ≤ v)]
        simp
      · rw [if_neg hbig, min_eq_right (by linarith : v ≤ (100:ℚ)),
          max_eq_right (by linarith : (0:ℚ) ≤ v)]
  · rw [update_fan_speed]
    simp only [sub_self, mul_zero, add_zero]
    rw [if_neg (by linarith : ¬ u < 0), if_neg (by linarith : ¬ 100 < u)]

/-- Witness for C5 at the default configuration with `u_prev = 40`,
`u_ref = 70`. -/
theorem fan_update_clamped_first_order_witness :
    (0 : ℚ) ≤ 40 ∧ (40 : ℚ) ≤ 100 ∧
    (update_fan_speed defaultParams 40 70
        = max 0 (min 100 (40 + (if 0 < defaultParams.TAU_FAN then
            defaultParams.DT / defaultParams.TAU_FAN else 1) * (70 - 40))) ∧
      update_fan_speed defaultParams 40 40 = 40) :=
  ⟨by norm_num, by norm_num,
    fan_update_clamped_first_order defaultParams 40 70 (by norm_num) (by norm_num)⟩

/-- C6: cooling power is the linear map of the defensively clamped fan
command, never negative and never above `Q_MAX`, with the four anchor
values `0 ↦ 0`, `50 ↦ Q_MAX/2`, `100 ↦ Q_MAX`, `150 ↦ Q_MAX`. -/
theorem cooling_power_linear_clamped (p : Params) (u : ℚ) (hQ : 0 ≤ p.Q_MAX) :
    0 ≤ compute_cooling_power p u ∧
    compute_cooling_power p u ≤ p.Q_MAX ∧
    compute_cooling_power p 0 = 0 ∧
    compute_cooling_power p 50 = p.Q_MAX / 2 ∧
    compute_cooling_power p 100 = p.Q_MAX ∧
    compute_cooling_power p 150 = p.Q_MAX := by
  refine ⟨?_, ?_, ?_, ?_, ?_, ?_⟩
  · exact mul_nonneg hQ (by positivity)
  · rw [compute_cooling_power]
    have h1 : max 0 (min 100 u) ≤ 100 :=
      max_le (by norm_num) (min_le_left _ _)
    nlinarith
  · rw [compute_cooling_power]; norm_num
  · rw [compute_cooling_power]; norm_num; ring
  · rw [compute_cooling_power]; norm_num
  · rw [compute_cooling_power]; norm_num

/-- Witness for C6 at the default configuration (`Q_MAX = 18000`) and
fan command `37`. -/
theorem cooling_power_linear_clamped_witness :
    (0 : ℚ) ≤ defaultParams.Q_MAX ∧
    (0 ≤ compute_cooling_power defaultParams 37 ∧
      compute_cooling_power defaultParams 37 ≤ defaultParams.Q_MAX ∧
      compute_cooling_power defaultParams 0 = 0 ∧
      compute_cooling_power defaultParams 50 = defaultParams.Q_MAX / 2 ∧
      compute_cooling_power defaultParams 100 = defaultParams.Q_MAX ∧
      compute_cooling_power defaultParams 150 = defaultParams.Q_MAX) :=
  ⟨by norm_num [defaultParams],
    cooling_power_linear_clamped defaultParams 37 (by norm_num [defaultParams])⟩

/-- Modelled from the spec: evaluation of a triangular membership function
with breakpoints `a ≤ b ≤ c` at a crisp point (spec section 3).  The
generic evaluator (`skfuzzy.trimf` together with crisp-point
interpolation) is not part of this repository's sources; only the
breakpoint triples below are.  Degenerate spans (`a = b` or `b = c`)
never reach the corresponding ramp branch, so no division by zero can
occur. -/
def tri (a b c x : ℚ) : ℚ :=
  if x < a ∨ c < x then 0
  else if x = b then 1
  else if x < b then (x - a) / (b - a)
  else (c - x) / (c - b)

/-- Error term NL of `create_error_antecedent`: `trimf [-10, -10, -5]`. -/
def error_NL (x : ℚ) : ℚ := tri (-10) (-10) (-5) x

/-- Error term NS of `create_error_antecedent`: `trimf [-6, -3.75, -1.5]`. -/
def error_NS (x : ℚ) : ℚ := tri (-6) (-3.75) (-1.5) x

/-- Error term ZE of `create_error_antecedent`: `trimf [-2, 0, 2]`. -/
def error_ZE (x : ℚ) : ℚ := tri (-2) 0 2 x

/-- Error term PS of `create_error_antecedent`: `trimf [1.5, 3.75, 6]`. -/
def error_PS (x : ℚ) : ℚ := tri 1.5 3.75 6 x

/-- Error term PL of `create_error_antecedent`: `trimf [5, 10, 10]`. -/
def error_PL (x : ℚ) : ℚ := tri 5 10 10 x

/-- Humidity term Dry of `create_humidity_antecedent`: `trimf [0, 0, 40]`. -/
def humidity_Dry (x : ℚ) : ℚ := tri 0 0 40 x

/-- Humidity term Ideal of `create_humidity_antecedent`: `trimf [30, 50, 70]`. -/
def humidity_Ideal (x : ℚ) : ℚ := tri 30 50 70 x

/-- Humidity term Humid of `create_humidity_antecedent`: `trimf [60, 100, 100]`. -/
def humidity_Humid (x : ℚ) : ℚ := tri 60 100 100 x

/-- Fan term Off of `create_fan_consequent`: `trimf [0, 0, 20]`. -/
def fan_Off (x : ℚ) : ℚ := tri 0 0 20 x

/-- Fan term Low of `create_fan_consequent`: `trimf [20, 35, 50]`. -/
def fan_Low (x : ℚ) : ℚ := tri 20 35 50 x

/-- Fan term Medium of `create_fan_consequent`: `trimf [40, 57.5, 75]`. -/
def fan_Medium (x : ℚ) : ℚ := tri 40 57.5 75 x

/-- Fan term High of `create_fan_consequent`: `trimf [70, 100, 100]`. -/
def fan_High (x : ℚ) : ℚ := tri 70 100 100 x

theorem tri_nonneg (a b c x : ℚ) : 0 ≤ tri a b c x := by
  rw [tri]
  split_ifs with h1 h2 h3
  · norm_num
  · norm_num
  · push_neg at h1
    have hab : a < b := lt_of_le_of_lt h1.1 h3
    exact div_nonneg (by linarith [h1.1]) (by linarith)
  · push_neg at h1 h3
    have hbx : b < x := lt_of_le_of_ne h3 (Ne.symm h2)
    have hbc : b < c := lt_of_lt_of_le hbx h1.2
    exact div_nonneg (by linarith [h1.2]) (by linarith)

theorem tri_le_one (a b c x : ℚ) : tri a b c x ≤ 1 := by
  rw [tri]
  split_ifs with h1 h2 h3
  · norm_num
  · norm_num
  · push_neg at h1
    have hab : a < b := lt_of_le_of_lt h1.1 h3
    rw [div_le_one (by linarith)]
    linarith
  · push_neg at h1 h3
    have hbx : b < x := lt_of_le_of_ne h3 (Ne.symm h2)
    have hbc : b < c := lt_of_lt_of_le hbx h1.2
    rw [div_le_one (by linarith)]
    linarith

theorem tri_eq_one_iff (a b c x : ℚ) (hab : a ≤ b) (hbc : b ≤ c) :
    tri a b c x = 1 ↔ x = b := by
  rw [tri]
  split_ifs with h1 h2 h3
  · constructor
    · intro h; exact absurd h (by norm_num)
    · intro h
      rcases h1 with h1 | h1
      · exact absurd (h ▸ h1) (not_lt.mpr hab)
      · exact absurd (h ▸ h1) (not_lt.mpr hbc)
  · exact ⟨fun _ => h2, fun _ => rfl⟩
  · push_neg at h1
    have hab' : a < b := lt_of_le_of_lt h1.1 h3
    constructor
    · intro h
      have : (x - a) / (b - a) < 1 := by
        rw [div_lt_one (by linarith)]
        linarith
      exact absurd h (ne_of_lt this)
    · intro h; exact absurd h h2
  · push_neg at h1 h3
    have hbx : b < x := lt_of_le_of_ne h3 (Ne.symm h2)
    have hbc' : b < c := lt_of_lt_of_le hbx h1.2
    constructor
    · intro h
      have : (c - x) / (c - b) < 1 := by
        rw [div_lt_one (by linarith)]
        linarith
      exact absurd h (ne_of_lt this)
    · intro h; exact absurd h h2

theorem tri_of_lt (a b c x : ℚ) (h : x < a) : tri a b c x = 0 := by
  rw [tri, if_pos (Or.inl h)]

theorem tri_of_gt (a b c x : ℚ) (h : c < x) : tri a b c x = 0 := by
  rw [tri, if_pos (Or.inr h)]

theorem tri_left_endpoint (a b c : ℚ) (hab : a < b) (hac : a ≤ c) :
    tri a b c a = 0 := by
  rw [tri, if_neg (by push_neg; exact ⟨le_refl a, hac⟩), if_neg (ne_of_lt hab),
    if_pos hab]
  simp

/-- C7: every membership term of the three fuzzy variables evaluates to a
degree in `[0,1]` at every point, and takes the value 1 exactly at its
defining peak `b`.  The terms with a degenerate span (NL, PL, Dry, Humid,
Off, High) are included: their evaluation never divides by zero (the
degenerate ramp branch of `tri` is unreachable) and the single-point
plateau value at the peak is 1. -/
theorem membership_bounds_and_peaks (x : ℚ) :
    (0 ≤ error_NL x ∧ error_NL x ≤ 1 ∧ (error_NL x = 1 ↔ x = -10)) ∧
    (0 ≤ error_NS x ∧ error_NS x ≤ 1 ∧ (error_NS x = 1 ↔ x = -3.75)) ∧
    (0 ≤ error_ZE x ∧ error_ZE x ≤ 1 ∧ (error_ZE x = 1 ↔ x = 0)) ∧
    (0 ≤ error_PS x ∧ error_PS x ≤ 1 ∧ (error_PS x = 1 ↔ x = 3.75)) ∧
    (0 ≤ error_PL x ∧ error_PL x ≤ 1 ∧ (error_PL x = 1 ↔ x = 10)) ∧
    (0 ≤ humidity_Dry x ∧ humidity_Dry x ≤ 1 ∧ (humidity_Dry x = 1 ↔ x = 0)) ∧
    (0 ≤ humidity_Ideal x ∧ humidity_Ideal x ≤ 1 ∧ (humidity_Ideal x = 1 ↔ x = 50)) ∧
    (0 ≤ humidity_Humid x ∧ humidity_Humid x ≤ 1 ∧ (humidity_Humid x = 1 ↔ x = 100)) ∧
    (0 ≤ fan_Off x ∧ fan_Off x ≤ 1 ∧ (fan_Off x = 1 ↔ x = 0)) ∧
    (0 ≤ fan_Low x ∧ fan_Low x ≤ 1 ∧ (fan_Low x = 1 ↔ x = 35)) ∧
    (0 ≤ fan_Medium x ∧ fan_Medium x ≤ 1 ∧ (fan_Medium x = 1 ↔ x = 57.5)) ∧
    (0 ≤ fan_High x ∧ fan_High x ≤ 1 ∧ (fan_High x = 1 ↔ x = 100)) := by
  refine ⟨?_, ?_, ?_, ?_, ?_, ?_, ?_, ?_, ?_, ?_, ?_, ?_⟩ <;>
    exact ⟨tri_nonneg _ _ _ _, tri_le_one _ _ _ _,
      tri_eq_one_iff _ _ _ _ (by norm_num) (by norm_num)⟩

/-- Rule strength feeding the Off consequent, from `_build_rules` rule 7:
`NS | NL → Off` (OR is fuzzy max). -/
def strength_Off (e : ℚ) : ℚ := max (error_NS e) (error_NL e)

/-- Rule strength feeding the Low consequent, from `_build_rules` rules 3
and 6: `PS & Dry → Low` and `ZE → Low` (AND is fuzzy min; rules sharing a
consequent aggregate by max). -/
def strength_Low (e h : ℚ) : ℚ :=
  max (min (error_PS e) (humidity_Dry h)) (error_ZE e)

/-- Rule strength feeding the Medium consequent, from `_build_rules` rules
1 and 4: `PL & Dry → Medium` and `PS & Ideal → Medium`. -/
def strength_Medium (e h : ℚ) : ℚ :=
  max (min (error_PL e) (humidity_Dry h)) (min (error_PS e) (humidity_Ideal h))

/-- Rule strength feeding the High consequent, from `_build_rules` rules 2
and 5: `PL & (Ideal | Humid) → High` and `PS & Humid → High`. -/
def strength_High (e h : ℚ) : ℚ :=
  max (min (error_PL e) (max (humidity_Ideal h) (humidity_Humid h)))
    (min (error_PS e) (humidity_Humid h))

/-- Modelled from the spec: Mamdani implication (clip each consequent term
at its rule strength) and aggregation (pointwise max), evaluated at one
sample point of the fan universe (spec section 4.1, steps 3–4).  The
implication/aggregation code itself lives in `skfuzzy`, outside this
repository; the terms and strengths come from the repository sources. -/
def aggregated (e h x : ℚ) : ℚ :=
  max (max (min (fan_Off x) (strength_Off e)) (min (fan_Low x) (strength_Low e h)))
    (max (min (fan_Medium x) (strength_Medium e h)) (min (fan_High x) (strength_High e h)))

/-- Modelled from the spec: numerator `Σ xᵢ·μ(xᵢ)` of the centroid over
the fan universe `np.arange(0.0, 100.1, 1.0) = {0, 1, …, 100}`. -/
def agg_num (e h : ℚ) : ℚ :=
  ∑ x ∈ Finset.range 101, (x : ℚ) * aggregated e h (x : ℚ)

/-- Modelled from the spec: denominator `Σ μ(xᵢ)` of the centroid over the
fan universe. -/
def agg_den (e h : ℚ) : ℚ :=
  ∑ x ∈ Finset.range 101, aggregated e h (x : ℚ)

/-- Modelled from the spec: centroid defuzzification with the zero-mass
fallback to the midpoint of the fan universe (spec section 4.1, step 5). -/
def defuzz (e h : ℚ) : ℚ :=
  if agg_den e h = 0 then 50 else agg_num e h / agg_den e h

/-- `app/control/fuzzy_controller.py`, `compute_u_fuzzy`: the error is
`T - T_set`, inference produces the crisp fan reference, and the result is
defensively clamped to `[0, 100]` with the source's `if`/`elif` chain. -/
def compute_u_fuzzy (T T_set humidity : ℚ) : ℚ :=
  let u := defuzz (T - T_set) humidity
  if u < 0 then 0 else if 100 < u then 100 else u

theorem fan_Off_nonneg (x : ℚ) : 0 ≤ fan_Off x := tri_nonneg _ _ _ _

theorem fan_Low_nonneg (x : ℚ) : 0 ≤ fan_Low x := tri_nonneg _ _ _ _

theorem fan_Medium_nonneg (x : ℚ) : 0 ≤ fan_Medium x := tri_nonneg _ _ _ _

theorem fan_High_nonneg (x : ℚ) : 0 ≤ fan_High x := tri_nonneg _ _ _ _

theorem strength_Off_nonneg (e : ℚ) : 0 ≤ strength_Off e :=
  le_trans (tri_nonneg _ _ _ _) (le_max_left _ _)

theorem strength_Low_nonneg (e h : ℚ) : 0 ≤ strength_Low e h :=
  le_trans (tri_nonneg _ _ _ _) (le_max_right _ _)

theorem strength_Medium_nonneg (e h : ℚ) : 0 ≤ strength_Medium e h :=
  le_trans (le_min (tri_nonneg _ _ _ _) (tri_nonneg _ _ _ _)) (le_max_left _ _)

theorem strength_High_nonneg (e h : ℚ) : 0 ≤ strength_High e h :=
  le_trans (le_min (tri_nonneg _ _ _ _) (tri_nonneg _ _ _ _)) (le_max_right _ _)

theorem aggregated_nonneg (e h x : ℚ) : 0 ≤ aggregated e h x :=
  le_trans (le_min (tri_nonneg _ _ _ _) (strength_Off_nonneg e))
    (le_trans (le_max_left _ _) (le_max_left _ _))

theorem agg_den_nonneg (e h : ℚ) : 0 ≤ agg_den e h :=
  Finset.sum_nonneg fun _ _ => aggregated_nonneg _ _ _

/-- If no rule fires at all, the aggregated set is identically zero. -/
theorem agg_den_eq_zero (e h : ℚ) (h1 : strength_Off e = 0)
    (h2 : strength_Low e h = 0) (h3 : strength_Medium e h = 0)
    (h4 : strength_High e h = 0) : agg_den e h = 0 := by
  rw [agg_den]
  apply Finset.sum_eq_zero
  intro x _
  rw [aggregated, h1, h2, h3, h4,
    min_eq_right (fan_Off_nonneg (x : ℚ)),
    min_eq_right (fan_Low_nonneg (x : ℚ)),
    min_eq_right (fan_Medium_nonneg (x : ℚ)),
    min_eq_right (fan_High_nonneg (x : ℚ))]
  norm_num

/-- No rule of the controller fires at error 20 (outside every error term)
with humidity 50 (outside Dry and Humid, and PS/PL are zero anyway). -/
theorem agg_den_at_20_50 : agg_den 20 50 = 0 := by
  apply agg_den_eq_zero
  · norm_num [strength_Off, error_NS, error_NL, tri, max_def]
  · norm_num [strength_Low, error_PS, error_ZE, humidity_Dry, tri, min_def, max_def]
  · norm_num [strength_Medium, error_PL, error_PS, humidity_Dry, humidity_Ideal, tri,
      min_def, max_def]
  · norm_num [strength_High, error_PL, error_PS, humidity_Ideal, humidity_Humid, tri,
      min_def, max_def]

/-- C2: the controller is total and defensive.  Crisp inputs beyond the
declared universes get membership degree 0 in every term (so they are
accepted, never an error); a zero-mass aggregated set defuzzifies to the
midpoint 50 of the fan universe; and for every input whatsoever the
returned reference lies in `[0, 100]`. -/
theorem fuzzy_controller_defensive (T T_set hum x y : ℚ)
    (hx : x < -10 ∨ 10 < x) (hy : y < 0 ∨ 100 < y)
    (hzero : agg_den (T - T_set) hum = 0) :
    (error_NL x = 0 ∧ error_NS x = 0 ∧ error_ZE x = 0 ∧
      error_PS x = 0 ∧ error_PL x = 0) ∧
    (humidity_Dry y = 0 ∧ humidity_Ideal y = 0 ∧ humidity_Humid y = 0) ∧
    compute_u_fuzzy T T_set hum = 50 ∧
    (∀ a b c : ℚ, 0 ≤ compute_u_fuzzy a b c ∧ compute_u_fuzzy a b c ≤ 100) := by
  refine ⟨⟨?_, ?_, ?_, ?_, ?_⟩, ⟨?_, ?_, ?_⟩, ?_, ?_⟩
  · rcases hx with h | h
    · exact tri_of_lt _ _ _ _ (by linarith)
    · exact tri_of_gt _ _ _ _ (by linarith)
  · rcases hx with h | h
    · exact tri_of_lt _ _ _ _ (by linarith)
    · exact tri_of_gt _ _ _ _ (by linarith)
  · rcases hx with h | h
    · exact tri_of_lt _ _ _ _ (by linarith)
    · exact tri_of_gt _ _ _ _ (by linarith)
  · rcases hx with h | h
    · exact tri_of_lt _ _ _ _ (by linarith)
    · exact tri_of_gt _ _ _ _ (by linarith)
  · rcases hx with h | h
    · exact tri_of_lt _ _ _ _ (by linarith)
    · exact tri_of_gt _ _ _ _ (by linarith)
  · rcases hy with h | h
    · exact tri_of_lt _ _ _ _ (by linarith)
    · exact tri_of_gt _ _ _ _ (by linarith)
  · rcases hy with h | h
    · exact tri_of_lt _ _ _ _ (by linarith)
    · exact tri_of_gt _ _ _ _ (by linarith)
  · rcases hy with h | h
    · exact tri_of_lt _ _ _ _ (by linarith)
    · exact tri_of_gt _ _ _ _ (by linarith)
  · simp only [compute_u_fuzzy, defuzz, hzero, if_pos]
    norm_num
  · intro a b c
    simp only [compute_u_fuzzy]
    split_ifs with h1 h2
    · norm_num
    · norm_num
    · exact ⟨le_of_not_lt h1, le_of_not_lt h2⟩

/-- Witness for C2: error input 11 and humidity input 101 are outside the
universes, and at `(T, T_set, humidity) = (20, 0, 50)` no rule fires, so
the reference defaults to the midpoint 50. -/
theorem fuzzy_controller_defensive_witness :
    ((11 : ℚ) < -10 ∨ (10 : ℚ) < 11) ∧ ((101 : ℚ) < 0 ∨ (100 : ℚ) < 101) ∧
    agg_den ((20 : ℚ) - 0) 50 = 0 ∧
    ((error_NL 11 = 0 ∧ error_NS 11 = 0 ∧ error_ZE 11 = 0 ∧
        error_PS 11 = 0 ∧ error_PL 11 = 0) ∧
      (humidity_Dry 101 = 0 ∧ humidity_Ideal 101 = 0 ∧ humidity_Humid 101 = 0) ∧
      compute_u_fuzzy 20 0 50 = 50 ∧
      (∀ a b c : ℚ, 0 ≤ compute_u_fuzzy a b c ∧ compute_u_fuzzy a b c ≤ 100)) := by
  have hz : agg_den ((20 : ℚ) - 0) 50 = 0 := by
    rw [show ((20 : ℚ) - 0) = 20 by norm_num]
    exact agg_den_at_20_50
  exact ⟨Or.inr (by norm_num), Or.inr (by norm_num), hz,
    fuzzy_controller_defensive 20 0 50 11 101 (Or.inr (by norm_num))
      (Or.inr (by norm_num)) hz⟩

theorem humidity_Dry_nonneg (h : ℚ) : 0 ≤ humidity_Dry h := tri_nonneg _ _ _ _

theorem humidity_Ideal_nonneg (h : ℚ) : 0 ≤ humidity_Ideal h := tri_nonneg _ _ _ _

theorem humidity_Humid_nonneg (h : ℚ) : 0 ≤ humidity_Humid h := tri_nonneg _ _ _ _

theorem strength_Low_zero (e h : ℚ) (hPS : error_PS e = 0) (hZE : error_ZE e = 0) :
    strength_Low e h = 0 := by
  rw [strength_Low, hPS, hZE, min_eq_left (humidity_Dry_nonneg h), max_self]

theorem strength_Medium_zero (e h : ℚ) (hPL : error_PL e = 0) (hPS : error_PS e = 0) :
    strength_Medium e h = 0 := by
  rw [strength_Medium, hPL, hPS, min_eq_left (humidity_Dry_nonneg h),
    min_eq_left (humidity_Ideal_nonneg h), max_self]

theorem strength_High_zero (e h : ℚ) (hPL : error_PL e = 0) (hPS : error_PS e = 0) :
    strength_High e h = 0 := by
  rw [strength_High, hPL, hPS,
    min_eq_left (le_trans (humidity_Ideal_nonneg h) (le_max_left _ _)),
    min_eq_left (humidity_Humid_nonneg h), max_self]

/-- When only the Off rule fires, the aggregated set is the clipped Off
term. -/
theorem aggregated_off_only (e h x : ℚ) (hL : strength_Low e h = 0)
    (hM : strength_Medium e h = 0) (hH : strength_High e h = 0) :
    aggregated e h x = min (fan_Off x) (strength_Off e) := by
  have hA : 0 ≤ min (fan_Off x) (strength_Off e) :=
    le_min (fan_Off_nonneg x) (strength_Off_nonneg e)
  rw [aggregated, hL, hM, hH, min_eq_right (fan_Low_nonneg x),
    min_eq_right (fan_Medium_nonneg x), min_eq_right (fan_High_nonneg x),
    max_self, max_eq_left hA, max_eq_left hA]

/-- When only the Low rules fire, the aggregated set is the clipped Low
term. -/
theorem aggregated_low_only (e h x : ℚ) (hO : strength_Off e = 0)
    (hM : strength_Medium e h = 0) (hH : strength_High e h = 0) :
    aggregated e h x = min (fan_Low x) (strength_Low e h) := by
  have hA : 0 ≤ min (fan_Low x) (strength_Low e h) :=
    le_min (fan_Low_nonneg x) (strength_Low_nonneg e h)
  rw [aggregated, hO, hM, hH, min_eq_right (fan_Off_nonneg x),
    min_eq_right (fan_Medium_nonneg x), min_eq_right (fan_High_nonneg x),
    max_self, max_eq_right hA, max_eq_left hA]

/-- When the Off and Low rules are silent, the aggregated set is the max
of the clipped Medium and High terms. -/
theorem aggregated_med_high (e h x : ℚ) (hO : strength_Off e = 0)
    (hL : strength_Low e h = 0) :
    aggregated e h x
      = max (min (fan_Medium x) (strength_Medium e h))
          (min (fan_High x) (strength_High e h)) := by
  have hC : 0 ≤ max (min (fan_Medium x) (strength_Medium e h))
      (min (fan_High x) (strength_High e h)) :=
    le_trans (le_min (fan_Medium_nonneg x) (strength_Medium_nonneg e h))
      (le_max_left _ _)
  rw [aggregated, hO, hL, min_eq_right (fan_Off_nonneg x),
    min_eq_right (fan_Low_nonneg x), max_self, max_eq_right hC]

theorem agg_sums_off_only (e h : ℚ) (hL : strength_Low e h = 0)
    (hM : strength_Medium e h = 0) (hH : strength_High e h = 0) :
    agg_num e h
        = ∑ x ∈ Finset.range 101, (x : ℚ) * min (fan_Off (x : ℚ)) (strength_Off e) ∧
    agg_den e h
        = ∑ x ∈ Finset.range 101, min (fan_Off (x : ℚ)) (strength_Off e) := by
  constructor
  · rw [agg_num]
    exact Finset.sum_congr rfl fun x _ => by rw [aggregated_off_only e h _ hL hM hH]
  · rw [agg_den]
    exact Finset.sum_congr rfl fun x _ => by rw [aggregated_off_only e h _ hL hM hH]

theorem agg_sums_low_only (e h : ℚ) (hO : strength_Off e = 0)
    (hM : strength_Medium e h = 0) (hH : strength_High e h = 0) :
    agg_num e h
        = ∑ x ∈ Finset.range 101, (x : ℚ) * min (fan_Low (x : ℚ)) (strength_Low e h) ∧
    agg_den e h
        = ∑ x ∈ Finset.range 101, min (fan_Low (x : ℚ)) (strength_Low e h) := by
  constructor
  · rw [agg_num]
    exact Finset.sum_congr rfl fun x _ => by rw [aggregated_low_only e h _ hO hM hH]
  · rw [agg_den]
    exact Finset.sum_congr rfl fun x _ => by rw [aggregated_low_only e h _ hO hM hH]

theorem defuzz_val (e h num den : ℚ) (hn : agg_num e h = num)
    (hd : agg_den e h = den) (hdz : den ≠ 0) : defuzz e h = num / den := by
  rw [defuzz, hd, hn, if_neg hdz]

theorem compute_u_fuzzy_eq_of (T Ts h v : ℚ) (hv : defuzz (T - Ts) h = v)
    (h0 : 0 ≤ v) (h1 : v ≤ 100) : compute_u_fuzzy T Ts h = v := by
  simp only [compute_u_fuzzy, hv]
  rw [if_neg (by linarith), if_neg (by linarith)]

theorem strengths_at_neg5_50 :
    strength_Off (-5) = 4 / 9 ∧ strength_Low (-5) 50 = 0 ∧
    strength_Medium (-5) 50 = 0 ∧ strength_High (-5) 50 = 0 := by
  refine ⟨?_, ?_, ?_, ?_⟩ <;>
    norm_num [strength_Off, strength_Low, strength_Medium, strength_High,
      error_NS, error_NL, error_PS, error_ZE, error_PL, humidity_Dry,
      humidity_Ideal, humidity_Humid, tri, min_def, max_def]

theorem strengths_at_neg4_50 :
    strength_Off (-4) = 8 / 9 ∧ strength_Low (-4) 50 = 0 ∧
    strength_Medium (-4) 50 = 0 ∧ strength_High (-4) 50 = 0 := by
  refine ⟨?_, ?_, ?_, ?_⟩ <;>
    norm_num [strength_Off, strength_Low, strength_Medium, strength_High,
      error_NS, error_NL, error_PS, error_ZE, error_PL, humidity_Dry,
      humidity_Ideal, humidity_Humid, tri, min_def, max_def]

set_option maxHeartbeats 2000000 in
theorem sum_off_clip_four_ninths :
    (∑ x ∈ Finset.range 101, min (fan_Off (x : ℚ)) (4 / 9)) = 107 / 15 ∧
    (∑ x ∈ Finset.range 101, (x : ℚ) * min (fan_Off (x : ℚ)) (4 / 9)) = 827 / 15 := by
  constructor <;>
  · simp only [Finset.sum_range_succ, Finset.sum_range_zero]
    norm_num [fan_Off, tri, min_def]

set_option maxHeartbeats 2000000 in
theorem sum_off_clip_eight_ninths :
    (∑ x ∈ Finset.range 101, min (fan_Off (x : ℚ)) (8 / 9)) = 619 / 60 ∧
    (∑ x ∈ Finset.range 101, (x : ℚ) * min (fan_Off (x : ℚ)) (8 / 9)) = 797 / 12 := by
  constructor <;>
  · simp only [Finset.sum_range_succ, Finset.sum_range_zero]
    norm_num [fan_Off, tri, min_def]

theorem agg_at_neg5_50 : agg_num (-5) 50 = 827 / 15 ∧ agg_den (-5) 50 = 107 / 15 := by
  obtain ⟨hO, hL, hM, hH⟩ := strengths_at_neg5_50
  obtain ⟨hn, hd⟩ := agg_sums_off_only (-5) 50 hL hM hH
  rw [hO] at hn hd
  exact ⟨hn.trans sum_off_clip_four_ninths.2, hd.trans sum_off_clip_four_ninths.1⟩

theorem agg_at_neg4_50 : agg_num (-4) 50 = 797 / 12 ∧ agg_den (-4) 50 = 619 / 60 := by
  obtain ⟨hO, hL, hM, hH⟩ := strengths_at_neg4_50
  obtain ⟨hn, hd⟩ := agg_sums_off_only (-4) 50 hL hM hH
  rw [hO] at hn hd
  exact ⟨hn.trans sum_off_clip_eight_ninths.2, hd.trans sum_off_clip_eight_ninths.1⟩

/-- Counterexample for C8: with humidity fixed at 50, the crisp fan
reference at error −5 (namely 827/107 ≈ 7.73) exceeds the one at error −4
(namely 3985/619 ≈ 6.44), although −5 ≤ −4: inside the region where only
the Off rule fires, raising the firing strength moves the centroid of the
clipped Off set towards lower fan values, so `compute_u_fuzzy` is not
non-decreasing in the error. -/
theorem fuzzy_not_monotone_in_error :
    compute_u_fuzzy (-4) 0 50 < compute_u_fuzzy (-5) 0 50 := by
  have h5 : compute_u_fuzzy (-5) 0 50 = 827 / 107 := by
    apply compute_u_fuzzy_eq_of _ _ _ _ _ (by norm_num) (by norm_num)
    rw [show ((-5 : ℚ) - 0) = -5 by norm_num,
      defuzz_val (-5) 50 _ _ agg_at_neg5_50.1 agg_at_neg5_50.2 (by norm_num)]
    norm_num
  have h4 : compute_u_fuzzy (-4) 0 50 = 3985 / 619 := by
    apply compute_u_fuzzy_eq_of _ _ _ _ _ (by norm_num) (by norm_num)
    rw [show ((-4 : ℚ) - 0) = -4 by norm_num,
      defuzz_val (-4) 50 _ _ agg_at_neg4_50.1 agg_at_neg4_50.2 (by norm_num)]
    norm_num
  rw [h4, h5]
  norm_num

set_option maxHeartbeats 2000000 in
theorem sum_off_clip_one :
    (∑ x ∈ Finset.range 101, min (fan_Off (x : ℚ)) 1) = 21 / 2 ∧
    (∑ x ∈ Finset.range 101, (x : ℚ) * min (fan_Off (x : ℚ)) 1) = 133 / 2 := by
  constructor <;>
  · simp only [Finset.sum_range_succ, Finset.sum_range_zero]
    norm_num [fan_Off, tri, min_def]

set_option maxHeartbeats 2000000 in
theorem sum_low_clip_one :
    (∑ x ∈ Finset.range 101, min (fan_Low (x : ℚ)) 1) = 15 ∧
    (∑ x ∈ Finset.range 101, (x : ℚ) * min (fan_Low (x : ℚ)) 1) = 525 := by
  constructor <;>
  · simp only [Finset.sum_range_succ, Finset.sum_range_zero]
    norm_num [fan_Low, tri, min_def]

theorem strength_Low_one (e h : ℚ) (hPS : error_PS e = 0) (hZE : error_ZE e = 1) :
    strength_Low e h = 1 := by
  rw [strength_Low, hPS, hZE, min_eq_left (humidity_Dry_nonneg h)]
  exact max_eq_right (by norm_num)

theorem fan_Medium_zero_of_le (q : ℚ) (hq : q ≤ 40) : fan_Medium q = 0 := by
  rcases lt_or_eq_of_le hq with h | h
  · exact tri_of_lt _ _ _ _ h
  · rw [h]
    exact tri_left_endpoint 40 57.5 75 (by norm_num) (by norm_num)

theorem fan_High_zero_of_le (q : ℚ) (hq : q ≤ 70) : fan_High q = 0 := by
  rcases lt_or_eq_of_le hq with h | h
  · exact tri_of_lt _ _ _ _ h
  · rw [h]
    exact tri_left_endpoint 70 100 100 (by norm_num) (by norm_num)

/-- Amended C8: with humidity held fixed, the crisp fan reference is
non-decreasing across the three qualitative operating points instead of
pointwise: deep cold (error −10, exact value 19/3), on target (error 0,
exact value 35), and fully hot (error 10, value at least 35, whatever the
humidity). -/
theorem fuzzy_coarse_monotone (hum : ℚ) :
    compute_u_fuzzy (-10) 0 hum = 19 / 3 ∧
    compute_u_fuzzy 0 0 hum = 35 ∧
    compute_u_fuzzy (-10) 0 hum ≤ compute_u_fuzzy 0 0 hum ∧
    compute_u_fuzzy 0 0 hum ≤ compute_u_fuzzy 10 0 hum := by
  have hPSm10 : error_PS (-10) = 0 := by norm_num [error_PS, tri]
  have hZEm10 : error_ZE (-10) = 0 := by norm_num [error_ZE, tri]
  have hPLm10 : error_PL (-10) = 0 := by norm_num [error_PL, tri]
  have hOffm10 : strength_Off (-10) = 1 := by
    norm_num [strength_Off, error_NS, error_NL, tri, max_def]
  have hvalm10 : compute_u_fuzzy (-10) 0 hum = 19 / 3 := by
    apply compute_u_fuzzy_eq_of _ _ _ _ _ (by norm_num) (by norm_num)
    obtain ⟨hn, hd⟩ := agg_sums_off_only (-10) hum
      (strength_Low_zero _ _ hPSm10 hZEm10)
      (strength_Medium_zero _ _ hPLm10 hPSm10)
      (strength_High_zero _ _ hPLm10 hPSm10)
    rw [hOffm10] at hn hd
    rw [show ((-10 : ℚ) - 0) = -10 by norm_num,
      defuzz_val (-10) hum _ _ (hn.trans sum_off_clip_one.2)
        (hd.trans sum_off_clip_one.1) (by norm_num)]
    norm_num
  have hPS0 : error_PS 0 = 0 := by norm_num [error_PS, tri]
  have hZE0 : error_ZE 0 = 1 := by norm_num [error_ZE, tri]
  have hPL0 : error_PL 0 = 0 := by norm_num [error_PL, tri]
  have hOff0 : strength_Off 0 = 0 := by
    norm_num [strength_Off, error_NS, error_NL, tri, max_def]
  have hval0 : compute_u_fuzzy 0 0 hum = 35 := by
    apply compute_u_fuzzy_eq_of _ _ _ _ _ (by norm_num) (by norm_num)
    obtain ⟨hn, hd⟩ := agg_sums_low_only 0 hum hOff0
      (strength_Medium_zero _ _ hPL0 hPS0)
      (strength_High_zero _ _ hPL0 hPS0)
    rw [strength_Low_one 0 hum hPS0 hZE0] at hn hd
    rw [show ((0 : ℚ) - 0) = 0 by norm_num,
      defuzz_val 0 hum _ _ (hn.trans sum_low_clip_one.2)
        (hd.trans sum_low_clip_one.1) (by norm_num)]
    norm_num
  have hPS10 : error_PS 10 = 0 := by norm_num [error_PS, tri]
  have hZE10 : error_ZE 10 = 0 := by norm_num [error_ZE, tri]
  have hOff10 : strength_Off 10 = 0 := by
    norm_num [strength_Off, error_NS, error_NL, tri, max_def]
  have hL10 : strength_Low 10 hum = 0 := strength_Low_zero _ _ hPS10 hZE10
  have hzero40 : ∀ q : ℚ, q ≤ 40 → aggregated 10 hum q = 0 := by
    intro q hq
    rw [aggregated_med_high 10 hum q hOff10 hL10, fan_Medium_zero_of_le q hq,
      fan_High_zero_of_le q (by linarith),
      min_eq_left (strength_Medium_nonneg 10 hum),
      min_eq_left (strength_High_nonneg 10 hum), max_self]
  have key : ∀ x ∈ Finset.range 101,
      41 * aggregated 10 hum (x : ℚ) ≤ (x : ℚ) * aggregated 10 hum (x : ℚ) := by
    intro x _
    by_cases hx : (x : ℚ) ≤ 40
    · rw [hzero40 _ hx]
      simp
    · push_neg at hx
      have hx41 : (41 : ℚ) ≤ (x : ℚ) := by
        have h40 : (40 : ℕ) < x := by exact_mod_cast hx
        have : (41 : ℕ) ≤ x := h40
        exact_mod_cast this
      exact mul_le_mul_of_nonneg_right hx41 (aggregated_nonneg _ _ _)
  have hge : 41 * agg_den 10 hum ≤ agg_num 10 hum := by
    rw [agg_den, agg_num, Finset.mul_sum]
    exact Finset.sum_le_sum key
  have h35 : 35 ≤ defuzz 10 hum := by
    rw [defuzz]
    split_ifs with hz
    · norm_num
    · have hpos : 0 < agg_den 10 hum :=
        lt_of_le_of_ne (agg_den_nonneg _ _) (Ne.symm hz)
      have h41 : (41 : ℚ) ≤ agg_num 10 hum / agg_den 10 hum :=
        (le_div_iff₀ hpos).mpr (by linarith)
      linarith
  refine ⟨hvalm10, hval0, by rw [hvalm10, hval0]; norm_num, ?_⟩
  rw [hval0]
  have hrw : ((10 : ℚ) - 0) = 10 := by norm_num
  simp only [compute_u_fuzzy, hrw]
  split_ifs with ha hb
  · linarith
  · norm_num
  · exact h35

/-- `app/simulation/state.py`, `SimulationState`: dynamic state of the
HVAC system at one time instant. -/
structure SimulationState where
  time : ℚ
  temperature : ℚ
  fan_speed : ℚ
  fuzzy_output : ℚ
  q_cool : ℚ
  q_dist : ℚ

/-- `SimulationState.initial`: `T0=None` silently defaults the starting
temperature to `parameters.T_INITIAL`; the recorded disturbance is
`Q_BASE + Q_EXTRA_DEFAULT`. -/
def SimulationState.initial (p : Params) (T0 : Option ℚ) : SimulationState :=
  { time := 0
    temperature := T0.getD p.T_INITIAL
    fan_speed := 0
    fuzzy_output := 0
    q_cool := 0
    q_dist := p.Q_BASE + p.Q_EXTRA_DEFAULT }

/-- `app/simulation/history.py`, `SimulationHistory`: six parallel
time-series buffers. -/
structure SimulationHistory where
  time : List ℚ
  temperature : List ℚ
  fan_speed : List ℚ
  fuzzy_output : List ℚ
  q_cool : List ℚ
  q_dist : List ℚ

/-- The `field(default_factory=list)` empty history. -/
def SimulationHistory.empty : SimulationHistory :=
  { time := [], temperature := [], fan_speed := [], fuzzy_output := [],
    q_cool := [], q_dist := [] }

/-- `SimulationHistory.append`: push one snapshot of every state field. -/
def SimulationHistory.append (h : SimulationHistory) (s : SimulationState) :
    SimulationHistory :=
  { time := h.time ++ [s.time]
    temperature := h.temperature ++ [s.temperature]
    fan_speed := h.fan_speed ++ [s.fan_speed]
    fuzzy_output := h.fuzzy_output ++ [s.fuzzy_output]
    q_cool := h.q_cool ++ [s.q_cool]
    q_dist := h.q_dist ++ [s.q_dist] }

/-- `app/simulation/engine.py`, `simulate_step`: fuzzy control from the
current temperature, fan inertia from the current fan command, cooling
power from the new fan command, disturbance `Q_BASE + q_extra`, thermal
update, time advance by `DT`. -/
def simulate_step (p : Params) (state : SimulationState)
    (T_set humidity q_extra : ℚ) : SimulationState :=
  let u_fuzzy := compute_u_fuzzy state.temperature T_set humidity
  let fan_next := update_fan_speed p state.fan_speed u_fuzzy
  let q_cool := compute_cooling_power p fan_next
  let q_dist := p.Q_BASE + q_extra
  let T_next := update_temperature p state.temperature q_dist q_cool
  { time := state.time + p.DT
    temperature := T_next
    fan_speed := fan_next
    fuzzy_output := u_fuzzy
    q_cool := q_cool
    q_dist := q_dist }

/-- Python's `int(·)` on a real value: truncation toward zero, as used in
`n_steps = int(duration_s / parameters.DT)`. -/
def pythonInt (q : ℚ) : ℤ :=
  if 0 ≤ q then ⌊q⌋ else -⌊-q⌋

/-- The `for _ in range(n_steps)` loop body of `run_simulation`: step,
then append the resulting state. -/
def run_loop (p : Params) (T_set humidity q_extra : ℚ) :
    ℕ → SimulationState → SimulationHistory → SimulationState × SimulationHistory
  | 0, state, history => (state, history)
  | n + 1, state, history =>
      run_loop p T_set humidity q_extra n (simulate_step p state T_set humidity q_extra)
        (history.append (simulate_step p state T_set humidity q_extra))

/-- `app/simulation/engine.py`, `run_simulation`: fresh initial state,
`n_steps = int(duration_s / DT)`, record the initial snapshot, then loop
(`range` of a negative count is empty, hence `Int.toNat`). -/
def run_simulation (p : Params) (duration_s T_set humidity q_extra : ℚ)
    (T0 : Option ℚ) : SimulationState × SimulationHistory :=
  run_loop p T_set humidity q_extra (pythonInt (duration_s / p.DT)).toNat
    (SimulationState.initial p T0)
    (SimulationHistory.empty.append (SimulationState.initial p T0))

/-- Pure iteration of `simulate_step`, used to state how many times the
run loop applies the step function. -/
def iterate_step (p : Params) (T_set humidity q_extra : ℚ) :
    ℕ → SimulationState → SimulationState
  | 0, s => s
  | n + 1, s => iterate_step p T_set humidity q_extra n (simulate_step p s T_set humidity q_extra)

/-- C9: the step function reads only the `time`, `temperature` and
`fan_speed` fields of its input state; two states agreeing on those three
fields produce identical successor states whatever their `fuzzy_output`,
`q_cool` and `q_dist` fields hold. -/
theorem simulate_step_depends_only_on_dynamic_fields (p : Params)
    (s1 s2 : SimulationState) (T_set humidity q_extra : ℚ)
    (ht : s1.time = s2.time) (hT : s1.temperature = s2.temperature)
    (hf : s1.fan_speed = s2.fan_speed) :
    simulate_step p s1 T_set humidity q_extra
      = simulate_step p s2 T_set humidity q_extra := by
  obtain ⟨t1, T1, f1, o1, c1, d1⟩ := s1
  obtain ⟨t2, T2, f2, o2, c2, d2⟩ := s2
  simp only at ht hT hf
  subst ht hT hf
  rfl

/-- Witness for C9: two concrete states sharing time 0, temperature 30
and fan command 10 but with different `fuzzy_output`, `q_cool` and
`q_dist` step to the same successor. -/
theorem simulate_step_depends_only_on_dynamic_fields_witness :
    (SimulationState.mk 0 30 10 77 1234 9999).time
        = (SimulationState.mk 0 30 10 0 0 2500).time ∧
    (SimulationState.mk 0 30 10 77 1234 9999).temperature
        = (SimulationState.mk 0 30 10 0 0 2500).temperature ∧
    (SimulationState.mk 0 30 10 77 1234 9999).fan_speed
        = (SimulationState.mk 0 30 10 0 0 2500).fan_speed ∧
    simulate_step defaultParams (SimulationState.mk 0 30 10 77 1234 9999) 24 60 3000
      = simulate_step defaultParams (SimulationState.mk 0 30 10 0 0 2500) 24 60 3000 :=
  ⟨rfl, rfl, rfl,
    simulate_step_depends_only_on_dynamic_fields defaultParams _ _ 24 60 3000 rfl rfl rfl⟩

theorem run_loop_fst (p : Params) (Ts hu qe : ℚ) :
    ∀ (n : ℕ) (s : SimulationState) (h : SimulationHistory),
      (run_loop p Ts hu qe n s h).1 = iterate_step p Ts hu qe n s := by
  intro n
  induction n with
  | zero => intro s h; rfl
  | succ n ih =>
      intro s h
      rw [run_loop, iterate_step]
      exact ih _ _

theorem run_loop_lengths (p : Params) (Ts hu qe : ℚ) :
    ∀ (n : ℕ) (s : SimulationState) (h : SimulationHistory),
      ((run_loop p Ts hu qe n s h).2).time.length = h.time.length + n ∧
      ((run_loop p Ts hu qe n s h).2).temperature.length = h.temperature.length + n ∧
      ((run_loop p Ts hu qe n s h).2).fan_speed.length = h.fan_speed.length + n ∧
      ((run_loop p Ts hu qe n s h).2).fuzzy_output.length = h.fuzzy_output.length + n ∧
      ((run_loop p Ts hu qe n s h).2).q_cool.length = h.q_cool.length + n ∧
      ((run_loop p Ts hu qe n s h).2).q_dist.length = h.q_dist.length + n := by
  intro n
  induction n with
  | zero => intro s h; simp [run_loop]
  | succ n ih =>
      intro s h
      have H := ih (simulate_step p s Ts hu qe) (h.append (simulate_step p s Ts hu qe))
      refine ⟨?_, ?_, ?_, ?_, ?_, ?_⟩
      · rw [run_loop, H.1]; simp [SimulationHistory.append]; omega
      · rw [run_loop, H.2.1]; simp [SimulationHistory.append]; omega
      · rw [run_loop, H.2.2.1]; simp [SimulationHistory.append]; omega
      · rw [run_loop, H.2.2.2.1]; simp [SimulationHistory.append]; omega
      · rw [run_loop, H.2.2.2.2.1]; simp [SimulationHistory.append]; omega
      · rw [run_loop, H.2.2.2.2.2]; simp [SimulationHistory.append]; omega

theorem run_loop_prefixes (p : Params) (Ts hu qe : ℚ) :
    ∀ (n : ℕ) (s : SimulationState) (h : SimulationHistory),
      ∃ l1 l2 : List ℚ,
        ((run_loop p Ts hu qe n s h).2).time = h.time ++ l1 ∧
        ((run_loop p Ts hu qe n s h).2).temperature = h.temperature ++ l2 := by
  intro n
  induction n with
  | zero => intro s h; exact ⟨[], [], by simp [run_loop], by simp [run_loop]⟩
  | succ n ih =>
      intro s h
      obtain ⟨l1, l2, e1, e2⟩ :=
        ih (simulate_step p s Ts hu qe) (h.append (simulate_step p s Ts hu qe))
      refine ⟨(simulate_step p s Ts hu qe).time :: l1,
        (simulate_step p s Ts hu qe).temperature :: l2, ?_, ?_⟩
      · rw [run_loop, e1]; simp [SimulationHistory.append]
      · rw [run_loop, e2]; simp [SimulationHistory.append]

theorem run_loop_q_dist (p : Params) (Ts hu qe : ℚ) :
    ∀ (n : ℕ) (s : SimulationState) (h : SimulationHistory),
      ((run_loop p Ts hu qe n s h).2).q_dist
        = h.q_dist ++ List.replicate n (p.Q_BASE + qe) := by
  intro n
  induction n with
  | zero => intro s h; simp [run_loop]
  | succ n ih =>
      intro s h
      rw [run_loop, ih]
      have hstep : (simulate_step p s Ts hu qe).q_dist = p.Q_BASE + qe := rfl
      simp [SimulationHistory.append, hstep, List.replicate_succ]

/-- C3 (amended to nonnegative durations): the run is the initial
snapshot followed by exactly `⌊duration/DT⌋` applications of
`simulate_step`, so each of the six history buffers has length
`⌊duration/DT⌋ + 1`, the history starts at time 0 with the initial
temperature, and the returned final state is the `⌊duration/DT⌋`-fold
iterate of the step function on the initial state. -/
theorem run_simulation_structure (p : Params) (d T_set hum q_extra : ℚ)
    (T0 : Option ℚ) (hDT : 0 < p.DT) (hd : 0 ≤ d) :
    (run_simulation p d T_set hum q_extra T0).1
        = iterate_step p T_set hum q_extra (⌊d / p.DT⌋).toNat
            (SimulationState.initial p T0) ∧
    ((run_simulation p d T_set hum q_extra T0).2).time.length
        = (⌊d / p.DT⌋).toNat + 1 ∧
    ((run_simulation p d T_set hum q_extra T0).2).temperature.length
        = (⌊d / p.DT⌋).toNat + 1 ∧
    ((run_simulation p d T_set hum q_extra T0).2).fan_speed.length
        = (⌊d / p.DT⌋).toNat + 1 ∧
    ((run_simulation p d T_set hum q_extra T0).2).fuzzy_output.length
        = (⌊d / p.DT⌋).toNat + 1 ∧
    ((run_simulation p d T_set hum q_extra T0).2).q_cool.length
        = (⌊d / p.DT⌋).toNat + 1 ∧
    ((run_simulation p d T_set hum q_extra T0).2).q_dist.length
        = (⌊d / p.DT⌋).toNat + 1 ∧
    ((run_simulation p d T_set hum q_extra T0).2).time.head? = some 0 ∧
    ((run_simulation p d T_set hum q_extra T0).2).temperature.head?
        = some (T0.getD p.T_INITIAL) := by
  have hq : 0 ≤ d / p.DT := div_nonneg hd (le_of_lt hDT)
  have hn : pythonInt (d / p.DT) = ⌊d / p.DT⌋ := by
    rw [pythonInt, if_pos hq]
  have H := run_loop_lengths p T_set hum q_extra (⌊d / p.DT⌋).toNat
    (SimulationState.initial p T0)
    (SimulationHistory.empty.append (SimulationState.initial p T0))
  obtain ⟨l1, l2, e1, e2⟩ := run_loop_prefixes p T_set hum q_extra
    (⌊d / p.DT⌋).toNat (SimulationState.initial p T0)
    (SimulationHistory.empty.append (SimulationState.initial p T0))
  rw [run_simulation, hn]
  refine ⟨run_loop_fst p T_set hum q_extra _ _ _, ?_, ?_, ?_, ?_, ?_, ?_, ?_, ?_⟩
  · rw [H.1]; simp [SimulationHistory.append, SimulationHistory.empty]; omega
  · rw [H.2.1]; simp [SimulationHistory.append, SimulationHistory.empty]; omega
  · rw [H.2.2.1]; simp [SimulationHistory.append, SimulationHistory.empty]; omega
  · rw [H.2.2.2.1]; simp [SimulationHistory.append, SimulationHistory.empty]; omega
  · rw [H.2.2.2.2.1]; simp [SimulationHistory.append, SimulationHistory.empty]; omega
  · rw [H.2.2.2.2.2]; simp [SimulationHistory.append, SimulationHistory.empty]; omega
  · rw [e1]; rfl
  · rw [e2]; rfl

/-- Witness for C3 at the default configuration: a 3-second run with
`DT = 1` has history length `⌊3/1⌋ + 1 = 4` in every buffer. -/
theorem run_simulation_structure_witness :
    0 < defaultParams.DT ∧ (0 : ℚ) ≤ 3 ∧
    ((run_simulation defaultParams 3 24 60 3000 none).1
        = iterate_step defaultParams 24 60 3000 (⌊(3 : ℚ) / defaultParams.DT⌋).toNat
            (SimulationState.initial defaultParams none) ∧
      ((run_simulation defaultParams 3 24 60 3000 none).2).time.length
        = (⌊(3 : ℚ) / defaultParams.DT⌋).toNat + 1 ∧
      ((run_simulation defaultParams 3 24 60 3000 none).2).temperature.length
        = (⌊(3 : ℚ) / defaultParams.DT⌋).toNat + 1 ∧
      ((run_simulation defaultParams 3 24 60 3000 none).2).fan_speed.length
        = (⌊(3 : ℚ) / defaultParams.DT⌋).toNat + 1 ∧
      ((run_simulation defaultParams 3 24 60 3000 none).2).fuzzy_output.length
        = (⌊(3 : ℚ) / defaultParams.DT⌋).toNat + 1 ∧
      ((run_simulation defaultParams 3 24 60 3000 none).2).q_cool.length
        = (⌊(3 : ℚ) / defaultParams.DT⌋).toNat + 1 ∧
      ((run_simulation defaultParams 3 24 60 3000 none).2).q_dist.length
        = (⌊(3 : ℚ) / defaultParams.DT⌋).toNat + 1 ∧
      ((run_simulation defaultParams 3 24 60 3000 none).2).time.head? = some 0 ∧
      ((run_simulation defaultParams 3 24 60 3000 none).2).temperature.head?
        = some (Option.getD none defaultParams.T_INITIAL)) :=
  ⟨by norm_num [defaultParams], by norm_num,
    run_simulation_structure defaultParams 3 24 60 3000 none
      (by norm_num [defaultParams]) (by norm_num)⟩

/-- Counterexample for C3: at duration −1 the Python loop body never runs
(`range(int(-1.0))` is empty), so the history holds exactly the single
initial snapshot, while `⌊duration/DT⌋ + 1 = 0`; the claimed invariant
`len(history) = ⌊duration/DT⌋ + 1` fails for this run. -/
theorem run_negative_duration_counterexample :
    ((run_simulation defaultParams (-1) 24 50 0 none).2).time.length = 1 ∧
    ⌊(-1 : ℚ) / defaultParams.DT⌋ + 1 = 0 := by
  constructor
  · rw [run_simulation]
    have hp : pythonInt ((-1 : ℚ) / defaultParams.DT) = -1 := by
      rw [pythonInt]
      norm_num [defaultParams]
    rw [hp]
    rfl
  · norm_num [defaultParams]

/-- C10: the initial snapshot records `Q_BASE + Q_EXTRA_DEFAULT` as its
disturbance (from `SimulationState.initial`), independent of the
`q_extra` passed to the run, while every stepped snapshot records
`Q_BASE + q_extra`; hence with `q_extra ≠ Q_EXTRA_DEFAULT` the first
history entry's `q_dist` differs from that of every later entry. -/
theorem run_q_dist_initial_vs_stepped (p : Params) (d T_set hum q_extra : ℚ)
    (T0 : Option ℚ) (hne : q_extra ≠ p.Q_EXTRA_DEFAULT) :
    ((run_simulation p d T_set hum q_extra T0).2).q_dist.head?
        = some (p.Q_BASE + p.Q_EXTRA_DEFAULT) ∧
    (∀ q ∈ ((run_simulation p d T_set hum q_extra T0).2).q_dist.tail,
        q = p.Q_BASE + q_extra) ∧
    (∀ q ∈ ((run_simulation p d T_set hum q_extra T0).2).q_dist.tail,
        q ≠ p.Q_BASE + p.Q_EXTRA_DEFAULT) := by
  have hq : ((run_simulation p d T_set hum q_extra T0).2).q_dist
      = (p.Q_BASE + p.Q_EXTRA_DEFAULT)
          :: List.replicate (pythonInt (d / p.DT)).toNat (p.Q_BASE + q_extra) := by
    rw [run_simulation, run_loop_q_dist]
    rfl
  rw [hq]
  refine ⟨rfl, ?_, ?_⟩
  · intro q hq'
    simp only [List.tail_cons] at hq'
    exact List.eq_of_mem_replicate hq'
  · intro q hq'
    simp only [List.tail_cons] at hq'
    rw [List.eq_of_mem_replicate hq']
    intro hcontra
    exact hne (by linarith)

/-- Witness for C10 at the default configuration with `q_extra = 500`
(the default extra disturbance is 0): a 2-second run records 2500 in the
initial snapshot and 3000 in both stepped snapshots. -/
theorem run_q_dist_initial_vs_stepped_witness :
    (500 : ℚ) ≠ defaultParams.Q_EXTRA_DEFAULT ∧
    (((run_simulation defaultParams 2 24 60 500 none).2).q_dist.head?
        = some (defaultParams.Q_BASE + defaultParams.Q_EXTRA_DEFAULT) ∧
      (∀ q ∈ ((run_simulation defaultParams 2 24 60 500 none).2).q_dist.tail,
          q = defaultParams.Q_BASE + 500) ∧
      (∀ q ∈ ((run_simulation defaultParams 2 24 60 500 none).2).q_dist.tail,
          q ≠ defaultParams.Q_BASE + defaultParams.Q_EXTRA_DEFAULT)) :=
  ⟨by norm_num [defaultParams],
    run_q_dist_initial_vs_stepped defaultParams 2 24 60 500 none
      (by norm_num [defaultParams])⟩

/-- The only failure Python can raise in the simulation core: a
`ZeroDivisionError` from `DT / C_THERMAL` (when `C_THERMAL` is exactly 0)
or from `duration_s / DT` (when `DT` is exactly 0); `DT / TAU_FAN` is
guarded by `TAU_FAN > 0`. -/
inductive SimError where
  | zeroDivision

/-- `update_temperature` with its division-by-zero failure made explicit:
Python raises if and only if `C_THERMAL == 0`. -/
def checked_update_temperature (p : Params) (T Q_dist Q_cool : ℚ) :
    Except SimError ℚ :=
  if p.C_THERMAL = 0 then Except.error SimError.zeroDivision
  else Except.ok (update_temperature p T Q_dist Q_cool)

/-- `simulate_step` with the failure of its thermal update propagated. -/
def checked_simulate_step (p : Params) (state : SimulationState)
    (T_set humidity q_extra : ℚ) : Except SimError SimulationState :=
  match checked_update_temperature p state.temperature (p.Q_BASE + q_extra)
      (compute_cooling_power p (update_fan_speed p state.fan_speed
        (compute_u_fuzzy state.temperature T_set humidity))) with
  | Except.error e => Except.error e
  | Except.ok _ => Except.ok (simulate_step p state T_set humidity q_extra)

/-- The run loop with step failures propagated. -/
def checked_run_loop (p : Params) (T_set humidity q_extra : ℚ) :
    ℕ → SimulationState → SimulationHistory
      → Except SimError (SimulationState × SimulationHistory)
  | 0, s, h => Except.ok (s, h)
  | n + 1, s, h =>
      match checked_simulate_step p s T_set humidity q_extra with
      | Except.error e => Except.error e
      | Except.ok s2 => checked_run_loop p T_set humidity q_extra n s2 (h.append s2)

/-- `run_simulation` with every possible runtime failure made explicit:
`duration_s / DT` raises when `DT == 0`, and each step can only fail in
its thermal update. -/
def checked_run_simulation (p : Params) (duration_s T_set humidity q_extra : ℚ)
    (T0 : Option ℚ) : Except SimError (SimulationState × SimulationHistory) :=
  if p.DT = 0 then Except.error SimError.zeroDivision
  else
    checked_run_loop p T_set humidity q_extra
      (pythonInt (duration_s / p.DT)).toNat (SimulationState.initial p T0)
      (SimulationHistory.empty.append (SimulationState.initial p T0))

theorem checked_simulate_step_ok (p : Params) (s : SimulationState)
    (Ts hu qe : ℚ) (hC : p.C_THERMAL ≠ 0) :
    checked_simulate_step p s Ts hu qe = Except.ok (simulate_step p s Ts hu qe) := by
  rw [checked_simulate_step, checked_update_temperature, if_neg hC]

theorem checked_run_loop_ok (p : Params) (Ts hu qe : ℚ) (hC : p.C_THERMAL ≠ 0) :
    ∀ (n : ℕ) (s : SimulationState) (h : SimulationHistory),
      checked_run_loop p Ts hu qe n s h = Except.ok (run_loop p Ts hu qe n s h) := by
  intro n
  induction n with
  | zero => intro s h; rfl
  | succ n ih =>
      intro s h
      rw [checked_run_loop, checked_simulate_step_ok p s Ts hu qe hC, run_loop]
      exact ih _ _

theorem checked_run_simulation_ok (p : Params) (d Ts hu qe : ℚ) (T0 : Option ℚ)
    (hC : p.C_THERMAL ≠ 0) (hDT : p.DT ≠ 0) :
    checked_run_simulation p d Ts hu qe T0
      = Except.ok (run_simulation p d Ts hu qe T0) := by
  rw [checked_run_simulation, if_neg hDT, checked_run_loop_ok p Ts hu qe hC,
    run_simulation]

/-- Amended C1: the core performs no configuration validation at all.
All constants are hard-coded in `parameters.py` (so a missing constant
cannot arise), nothing is rejected at construction, and any
configuration whose two divisors are nonzero — including non-positive
`C_THERMAL`, negative `DT` and negative `Q_MAX` — runs to completion
without any error; the only possible failure is a `ZeroDivisionError`
when `C_THERMAL` or `DT` is exactly zero, raised during stepping, not at
setup. -/
theorem no_configuration_validation (p : Params) (d T_set hum q_extra : ℚ)
    (T0 : Option ℚ) (hC : p.C_THERMAL ≠ 0) (hDT : p.DT ≠ 0) :
    checked_run_simulation p d T_set hum q_extra T0
      = Except.ok (run_simulation p d T_set hum q_extra T0) :=
  checked_run_simulation_ok p d T_set hum q_extra T0 hC hDT

/-- Witness for C1 at the (valid) default configuration. -/
theorem no_configuration_validation_witness :
    defaultParams.C_THERMAL ≠ 0 ∧ defaultParams.DT ≠ 0 ∧
    checked_run_simulation defaultParams 5 24 60 1000 none
      = Except.ok (run_simulation defaultParams 5 24 60 1000 none) :=
  ⟨by norm_num [defaultParams], by norm_num [defaultParams],
    no_configuration_validation defaultParams 5 24 60 1000 none
      (by norm_num [defaultParams]) (by norm_num [defaultParams])⟩

/-- A configuration that the spec calls invalid on all three counts:
negative `DT`, negative `C_THERMAL`, negative `Q_MAX`. -/
def invalid_config : Params :=
  { DT := -1
    C_THERMAL := -1000000
    T_INITIAL := 30
    Q_BASE := 2500
    Q_EXTRA_DEFAULT := 0
    Q_COOL_DEFAULT := 0
    Q_MAX := -5
    TAU_FAN := 10 }

/-- Counterexample for C1: a configuration with negative `DT`, negative
`C_THERMAL` and negative `Q_MAX` is not rejected at construction or
anywhere else — the simulation completes normally, contradicting the
claim that such configurations raise a fatal error at setup. -/
theorem invalid_config_not_rejected :
    invalid_config.DT < 0 ∧ invalid_config.C_THERMAL < 0 ∧
    invalid_config.Q_MAX < 0 ∧
    checked_run_simulation invalid_config 3 24 50 0 none
      = Except.ok (run_simulation invalid_config 3 24 50 0 none) :=
  ⟨by norm_num [invalid_config], by norm_num [invalid_config],
    by norm_num [invalid_config],
    checked_run_simulation_ok invalid_config 3 24 50 0 none
      (by norm_num [invalid_config]) (by norm_num [invalid_config])⟩
